import Mathlib

/-!
Verification of the descriptor-dispatch stage of popsift's IGRID variant
(`src/popsift/s_desc_igrid.h`), a shallow embedding of the function
`start_ext_desc_igrid` together with the launch trace it produces.

The C++ function reads the per-octave pending orientation-pair count
`hct.ori_ct[octave]`, returns `false` without any launch when the count is
zero, and otherwise issues one launch of the `ext_desc_igrid` kernel with
grid `(count, 1, 1)` and block `(16, 16, IGRID_NUMLINES)` on the octave's
stream, followed by a `POP_SYNC_CHK` synchronization checkpoint, and
returns `true`.

The embedding records the observable effects of a call as a list of
`Event`s (kernel launches and synchronization checks) and threads the
caller-visible state (`hct` and the octave object) through explicitly, so
that absence of mutation is a provable statement rather than an artifact.
-/

namespace popsift

/-- Embedding of the CUDA/HIP `dim3` type.  The default constructor of
`dim3` initializes all three components to 1; `start_ext_desc_igrid`
overwrites every component it uses explicitly. -/
structure dim3 where
  x : Nat
  y : Nat
  z : Nat
deriving DecidableEq, Repr

/-- Embedding of `hipTextureObject_t` wrapped the way `getDataTexLinear()`
returns it: a record with a `.tex` member (the texture handle). -/
structure LinearTexture where
  tex : Nat
deriving DecidableEq, Repr

/-- The slice of the `Octave` object that `start_ext_desc_igrid` reads:
the execution stream handle (`getStream()`) and the linearly-interpolated
data texture (`getDataTexLinear()`). -/
structure Octave where
  stream : Nat
  dataTexLinear : LinearTexture
deriving DecidableEq, Repr

/-- `oct_obj.getStream()`. -/
def Octave.getStream (o : Octave) : Nat := o.stream

/-- `oct_obj.getDataTexLinear()`. -/
def Octave.getDataTexLinear (o : Octave) : LinearTexture := o.dataTexLinear

/-- The slice of the global host-side counter table `hct` that
`start_ext_desc_igrid` reads: per-octave pending orientation-pair counts
`ori_ct`. -/
structure ExtremaCounters where
  ori_ct : Nat → Nat

/-- The kernels this translation unit can launch, with their arguments.
`ext_desc_igrid` takes the octave index and the linear texture handle. -/
inductive Kernel where
  | ext_desc_igrid (octave : Nat) (texLinear : Nat)
deriving DecidableEq, Repr

/-- One `hipLaunchKernelGGL` call: kernel with its arguments, grid and
block geometry, shared-memory byte count, and the stream it is enqueued
on. -/
structure KernelLaunch where
  kernel : Kernel
  grid : dim3
  block : dim3
  sharedMem : Nat
  stream : Nat
deriving DecidableEq, Repr

/-- An observable effect of the dispatch function: a kernel launch or a
synchronization/error checkpoint. -/
inductive Event where
  | launch (k : KernelLaunch)
  | syncChk
deriving DecidableEq, Repr

/-- Modelled from the spec: the `POP_SYNC_CHK` macro comes from
`common/debug_macros.h`, which is not part of the supplied sources; per
the specification the stage "performs an explicit synchronization/error
check immediately after each launch", so the macro is modelled as
emitting one synchronization-checkpoint event. -/
def POP_SYNC_CHK : List Event := [Event.syncChk]

/-- `#define IGRID_NUMLINES 1` from `s_desc_igrid.h`. -/
def IGRID_NUMLINES : Nat := 1

/-- The result of a call to `start_ext_desc_igrid`: the boolean return
value, the trace of effects issued, and the caller-visible state (`hct`
and the octave object) after the call. -/
structure DispatchResult where
  ret : Bool
  events : List Event
  hct_out : ExtremaCounters
  oct_out : Octave

/-- Shallow embedding of `start_ext_desc_igrid(const int octave,
Octave& oct_obj)`, statement by statement:

    grid.x = hct.ori_ct[octave]; grid.y = 1; grid.z = 1;
    if( grid.x == 0 ) return false;
    block.x = 16; block.y = 16; block.z = IGRID_NUMLINES;
    hipLaunchKernelGGL(ext_desc_igrid, grid, block, 0, oct_obj.getStream(),
                       octave, oct_obj.getDataTexLinear().tex);
    POP_SYNC_CHK;
    return true;

The function performs no assignment to `hct` or to `oct_obj`, so the
output state fields carry the inputs through unchanged. -/
def start_ext_desc_igrid (octave : Nat) (hct : ExtremaCounters)
    (oct_obj : Octave) : DispatchResult :=
  let grid : dim3 := { x := hct.ori_ct octave, y := 1, z := 1 }
  if grid.x = 0 then
    { ret := false, events := [], hct_out := hct, oct_out := oct_obj }
  else
    let block : dim3 := { x := 16, y := 16, z := IGRID_NUMLINES }
    let launch : KernelLaunch :=
      { kernel := Kernel.ext_desc_igrid octave (oct_obj.getDataTexLinear).tex
        grid := grid
        block := block
        sharedMem := 0
        stream := oct_obj.getStream }
    { ret := true
      events := Event.launch launch :: POP_SYNC_CHK
      hct_out := hct
      oct_out := oct_obj }

/-- The kernel launches contained in an event trace, in order. -/
def launchesOf (evs : List Event) : List KernelLaunch :=
  evs.filterMap fun e =>
    match e with
    | Event.launch k => some k
    | Event.syncChk => none

/-- The total number of parallel groups launched by a trace: the sum over
its launches of the full grid volume `grid.x * grid.y * grid.z`. -/
def groupsLaunched (evs : List Event) : Nat :=
  ((launchesOf evs).map fun k => k.grid.x * k.grid.y * k.grid.z).sum

end popsift

namespace popsift

/-- Claim C1: for every octave, the total number of parallel groups
launched by `start_ext_desc_igrid` (the sum of `grid.x * grid.y * grid.z`
over every launch it issues) equals that octave's pending
orientation-pair count `hct.ori_ct[octave]` exactly, so exactly one
descriptor-producing group exists per (keypoint, orientation) pair. -/
theorem groups_launched_eq_ori_ct (octave : Nat) (hct : ExtremaCounters)
    (oct_obj : Octave) :
    groupsLaunched (start_ext_desc_igrid octave hct oct_obj).events
      = hct.ori_ct octave := by
  by_cases h : hct.ori_ct octave = 0
  · simp [start_ext_desc_igrid, h, groupsLaunched, launchesOf]
  · simp [start_ext_desc_igrid, h, groupsLaunched, launchesOf, POP_SYNC_CHK]

/-- Claim C2: for every octave whose pending orientation-pair count is
zero, `start_ext_desc_igrid` returns `false` and issues no kernel launch
and no enqueue on any stream (its effect trace is empty); the skip is
signaled only through the boolean return value. -/
theorem no_work_returns_false_no_launch (octave : Nat)
    (hct : ExtremaCounters) (oct_obj : Octave)
    (h : hct.ori_ct octave = 0) :
    (start_ext_desc_igrid octave hct oct_obj).ret = false ∧
    (start_ext_desc_igrid octave hct oct_obj).events = [] := by
  simp [start_ext_desc_igrid, h]

/-- Witness for C2 at octave 2 with an all-zero counter table. -/
theorem no_work_returns_false_no_launch_witness :
    (start_ext_desc_igrid 2 ⟨fun _ => 0⟩ ⟨7, ⟨11⟩⟩).ret = false ∧
    (start_ext_desc_igrid 2 ⟨fun _ => 0⟩ ⟨7, ⟨11⟩⟩).events = [] :=
  no_work_returns_false_no_launch 2 ⟨fun _ => 0⟩ ⟨7, ⟨11⟩⟩ rfl

/-- Claim C3: for every octave whose pending orientation-pair count is
strictly positive, `start_ext_desc_igrid` issues exactly one launch, that
launch runs the `ext_desc_igrid` kernel, and the function returns `true`;
moreover, unconditionally, the boolean return value is `true` if and only
if exactly one launch was issued. -/
theorem positive_work_one_launch_true (octave : Nat)
    (hct : ExtremaCounters) (oct_obj : Octave) :
    (0 < hct.ori_ct octave →
      (start_ext_desc_igrid octave hct oct_obj).ret = true ∧
      (launchesOf (start_ext_desc_igrid octave hct oct_obj).events).length
        = 1 ∧
      ∀ k ∈ launchesOf (start_ext_desc_igrid octave hct oct_obj).events,
        k.kernel
          = Kernel.ext_desc_igrid octave (oct_obj.getDataTexLinear).tex) ∧
    ((start_ext_desc_igrid octave hct oct_obj).ret = true ↔
      (launchesOf (start_ext_desc_igrid octave hct oct_obj).events).length
        = 1) := by
  by_cases h : hct.ori_ct octave = 0
  · simp [start_ext_desc_igrid, h, launchesOf]
  · simp [start_ext_desc_igrid, h, launchesOf, POP_SYNC_CHK]

/-- Witness for C3 at octave 0 with a constant count of 3. -/
theorem positive_work_one_launch_true_witness :
    (start_ext_desc_igrid 0 ⟨fun _ => 3⟩ ⟨5, ⟨9⟩⟩).ret = true ∧
    (launchesOf (start_ext_desc_igrid 0 ⟨fun _ => 3⟩ ⟨5, ⟨9⟩⟩).events).length
      = 1 :=
  ⟨((positive_work_one_launch_true 0 ⟨fun _ => 3⟩ ⟨5, ⟨9⟩⟩).1
      (by decide)).1,
   ((positive_work_one_launch_true 0 ⟨fun _ => 3⟩ ⟨5, ⟨9⟩⟩).1
      (by decide)).2.1⟩

/-- Claim C4: every launch issued by `start_ext_desc_igrid` is enqueued on
the stream handle of the given octave object, `oct_obj.getStream()`, not
on a default or shared stream. -/
theorem launch_on_octave_stream (octave : Nat) (hct : ExtremaCounters)
    (oct_obj : Octave) (k : KernelLaunch)
    (hk : k ∈ launchesOf (start_ext_desc_igrid octave hct oct_obj).events) :
    k.stream = oct_obj.getStream := by
  by_cases h : hct.ori_ct octave = 0
  · simp [start_ext_desc_igrid, h, launchesOf] at hk
  · simp [start_ext_desc_igrid, h, launchesOf, POP_SYNC_CHK] at hk
    subst hk
    rfl

/-- Witness for C4: the single launch at octave 1 with stream handle 3
targets stream 3. -/
theorem launch_on_octave_stream_witness :
    (⟨Kernel.ext_desc_igrid 1 4, ⟨2, 1, 1⟩, ⟨16, 16, 1⟩, 0, 3⟩
        : KernelLaunch).stream
      = (⟨3, ⟨4⟩⟩ : Octave).getStream :=
  launch_on_octave_stream 1 ⟨fun _ => 2⟩ ⟨3, ⟨4⟩⟩
    ⟨Kernel.ext_desc_igrid 1 4, ⟨2, 1, 1⟩, ⟨16, 16, 1⟩, 0, 3⟩ (by decide)

end popsift

namespace popsift

/-- Claim C5: immediately after every kernel launch `start_ext_desc_igrid`
issues, and before it returns, a synchronization/error checkpoint occurs
in its effect trace: whenever position `i` of the trace is a launch,
position `i + 1` is a `syncChk` event (`POP_SYNC_CHK`, modelled from the
spec since `common/debug_macros.h` is not among the supplied sources). -/
theorem sync_chk_follows_every_launch (octave : Nat)
    (hct : ExtremaCounters) (oct_obj : Octave) (i : Nat) (k : KernelLaunch)
    (h : (start_ext_desc_igrid octave hct oct_obj).events[i]?
          = some (Event.launch k)) :
    (start_ext_desc_igrid octave hct oct_obj).events[i + 1]?
      = some Event.syncChk := by
  by_cases hc : hct.ori_ct octave = 0
  · simp [start_ext_desc_igrid, hc] at h
  · match i with
    | 0 => simp [start_ext_desc_igrid, hc, POP_SYNC_CHK]
    | 1 => simp [start_ext_desc_igrid, hc, POP_SYNC_CHK] at h
    | n + 2 => simp [start_ext_desc_igrid, hc, POP_SYNC_CHK] at h

/-- Witness for C5: at octave 1 with count 2, the event right after the
launch at position 0 is the synchronization checkpoint. -/
theorem sync_chk_follows_every_launch_witness :
    (start_ext_desc_igrid 1 ⟨fun _ => 2⟩ ⟨3, ⟨4⟩⟩).events[0 + 1]?
      = some Event.syncChk :=
  sync_chk_follows_every_launch 1 ⟨fun _ => 2⟩ ⟨3, ⟨4⟩⟩ 0
    ⟨Kernel.ext_desc_igrid 1 4, ⟨2, 1, 1⟩, ⟨16, 16, 1⟩, 0, 3⟩ (by decide)

/-- Claim C6 as amended: the intra-group worker tile shape is not
selectable through any input of `start_ext_desc_igrid` — for any two
calls, with arbitrary octave indices, counter tables and octave objects,
every launch of either call carries the identical hard-coded block shape,
namely `(16, 16, IGRID_NUMLINES)` with `IGRID_NUMLINES` fixed to 1 by a
macro in the same header. -/
theorem tile_shape_hard_coded (o1 o2 : Nat) (t1 t2 : ExtremaCounters)
    (b1 b2 : Octave) (k1 k2 : KernelLaunch)
    (hk1 : k1 ∈ launchesOf (start_ext_desc_igrid o1 t1 b1).events)
    (hk2 : k2 ∈ launchesOf (start_ext_desc_igrid o2 t2 b2).events) :
    k1.block = k2.block ∧ k1.block = ⟨16, 16, IGRID_NUMLINES⟩ := by
  have hb : ∀ (o : Nat) (t : ExtremaCounters) (b : Octave)
      (k : KernelLaunch),
      k ∈ launchesOf (start_ext_desc_igrid o t b).events →
      k.block = ⟨16, 16, IGRID_NUMLINES⟩ := by
    intro o t b k hk
    by_cases h : t.ori_ct o = 0
    · simp [start_ext_desc_igrid, h, launchesOf] at hk
    · simp [start_ext_desc_igrid, h, launchesOf, POP_SYNC_CHK] at hk
      subst hk
      rfl
  have h1 := hb o1 t1 b1 k1 hk1
  have h2 := hb o2 t2 b2 k2 hk2
  exact ⟨h1.trans h2.symm, h1⟩

/-- Counterexample for C6 as stated: two calls with entirely different
caller-controllable inputs (octave index, counter table, stream handle,
texture handle) both launch with the same block shape `(16, 16, 1)` — the
tile shape is a hard-coded constant, and no configuration input of
`start_ext_desc_igrid` selects it. -/
theorem tile_shape_not_selectable_cex :
    ((launchesOf (start_ext_desc_igrid 0 ⟨fun _ => 1⟩ ⟨0, ⟨0⟩⟩).events).map
        KernelLaunch.block = [⟨16, 16, 1⟩]) ∧
    ((launchesOf
        (start_ext_desc_igrid 7 ⟨fun o => o + 100⟩ ⟨42, ⟨99⟩⟩).events).map
        KernelLaunch.block = [⟨16, 16, 1⟩]) := by
  constructor <;> rfl

/-- Witness for C6 (amended): the launches of the two concrete calls of
the counterexample carry equal, hard-coded block shapes. -/
theorem tile_shape_hard_coded_witness :
    (⟨Kernel.ext_desc_igrid 0 0, ⟨1, 1, 1⟩, ⟨16, 16, 1⟩, 0, 0⟩
        : KernelLaunch).block
      = (⟨Kernel.ext_desc_igrid 7 99, ⟨107, 1, 1⟩, ⟨16, 16, 1⟩, 0, 42⟩
          : KernelLaunch).block ∧
    (⟨Kernel.ext_desc_igrid 0 0, ⟨1, 1, 1⟩, ⟨16, 16, 1⟩, 0, 0⟩
        : KernelLaunch).block = ⟨16, 16, IGRID_NUMLINES⟩ :=
  tile_shape_hard_coded 0 7 ⟨fun _ => 1⟩ ⟨fun o => o + 100⟩ ⟨0, ⟨0⟩⟩
    ⟨42, ⟨99⟩⟩
    ⟨Kernel.ext_desc_igrid 0 0, ⟨1, 1, 1⟩, ⟨16, 16, 1⟩, 0, 0⟩
    ⟨Kernel.ext_desc_igrid 7 99, ⟨107, 1, 1⟩, ⟨16, 16, 1⟩, 0, 42⟩
    (by decide) (by decide)

end popsift

namespace popsift

/-- Claim C7: running the extraction entry point twice on identical input
(same octave index, same counter table, same octave object) yields
identical results — the same boolean return value and the same effect
trace, hence the same launch geometry (grid and block dimensions) and the
same stream and texture arguments in both runs. -/
theorem extraction_deterministic (o1 o2 : Nat) (t1 t2 : ExtremaCounters)
    (b1 b2 : Octave) (ho : o1 = o2) (ht : t1 = t2) (hb : b1 = b2) :
    (start_ext_desc_igrid o1 t1 b1).ret
        = (start_ext_desc_igrid o2 t2 b2).ret ∧
    (start_ext_desc_igrid o1 t1 b1).events
        = (start_ext_desc_igrid o2 t2 b2).events := by
  subst ho
  subst ht
  subst hb
  exact ⟨rfl, rfl⟩

/-- Witness for C7: two runs at octave 3 on the same concrete input
agree on the return value and on the whole effect trace. -/
theorem extraction_deterministic_witness :
    (start_ext_desc_igrid 3 ⟨fun _ => 4⟩ ⟨8, ⟨2⟩⟩).ret
        = (start_ext_desc_igrid 3 ⟨fun _ => 4⟩ ⟨8, ⟨2⟩⟩).ret ∧
    (start_ext_desc_igrid 3 ⟨fun _ => 4⟩ ⟨8, ⟨2⟩⟩).events
        = (start_ext_desc_igrid 3 ⟨fun _ => 4⟩ ⟨8, ⟨2⟩⟩).events :=
  extraction_deterministic 3 3 ⟨fun _ => 4⟩ ⟨fun _ => 4⟩ ⟨8, ⟨2⟩⟩ ⟨8, ⟨2⟩⟩
    rfl rfl rfl

/-- Claim C8: every launch issued by `start_ext_desc_igrid` uses a
one-dimensional group geometry: `grid.y` and `grid.z` are `1`, and
`grid.x` is exactly the octave's pending count, so the group index space
is `[0, hct.ori_ct[octave])` with no hidden multiplier from extra grid
dimensions. -/
theorem grid_is_one_dimensional (octave : Nat) (hct : ExtremaCounters)
    (oct_obj : Octave) (k : KernelLaunch)
    (hk : k ∈ launchesOf (start_ext_desc_igrid octave hct oct_obj).events) :
    k.grid.y = 1 ∧ k.grid.z = 1 ∧ k.grid.x = hct.ori_ct octave := by
  by_cases h : hct.ori_ct octave = 0
  · simp [start_ext_desc_igrid, h, launchesOf] at hk
  · simp [start_ext_desc_igrid, h, launchesOf, POP_SYNC_CHK] at hk
    subst hk
    exact ⟨rfl, rfl, rfl⟩

/-- Witness for C8: the single launch at octave 0 with count 5 has grid
`(5, 1, 1)`. -/
theorem grid_is_one_dimensional_witness :
    (⟨Kernel.ext_desc_igrid 0 6, ⟨5, 1, 1⟩, ⟨16, 16, 1⟩, 0, 1⟩
        : KernelLaunch).grid.y = 1 ∧
    (⟨Kernel.ext_desc_igrid 0 6, ⟨5, 1, 1⟩, ⟨16, 16, 1⟩, 0, 1⟩
        : KernelLaunch).grid.z = 1 ∧
    (⟨Kernel.ext_desc_igrid 0 6, ⟨5, 1, 1⟩, ⟨16, 16, 1⟩, 0, 1⟩
        : KernelLaunch).grid.x
      = ExtremaCounters.ori_ct ⟨fun _ => 5⟩ 0 :=
  grid_is_one_dimensional 0 ⟨fun _ => 5⟩ ⟨1, ⟨6⟩⟩
    ⟨Kernel.ext_desc_igrid 0 6, ⟨5, 1, 1⟩, ⟨16, 16, 1⟩, 0, 1⟩ (by decide)

/-- Claim C9: every launch issued by `start_ext_desc_igrid` uses block
dimensions exactly `(16, 16, 1)` — 256 workers per group, since
`IGRID_NUMLINES` is defined as 1 — notwithstanding the comment on the
`ext_desc_igrid` kernel declaration, which assumes a block of `16,4,4` or
`32,4,4`. -/
theorem block_is_16_16_1 (octave : Nat) (hct : ExtremaCounters)
    (oct_obj : Octave) (k : KernelLaunch)
    (hk : k ∈ launchesOf (start_ext_desc_igrid octave hct oct_obj).events) :
    k.block.x = 16 ∧ k.block.y = 16 ∧ k.block.z = IGRID_NUMLINES ∧
    IGRID_NUMLINES = 1 ∧ k.block.x * k.block.y * k.block.z = 256 := by
  by_cases h : hct.ori_ct octave = 0
  · simp [start_ext_desc_igrid, h, launchesOf] at hk
  · simp [start_ext_desc_igrid, h, launchesOf, POP_SYNC_CHK] at hk
    subst hk
    refine ⟨rfl, rfl, rfl, rfl, ?_⟩
    norm_num [IGRID_NUMLINES]

/-- Witness for C9: the single launch at octave 4 with count 9 has block
`(16, 16, 1)`, i.e. 256 workers per group. -/
theorem block_is_16_16_1_witness :
    (⟨Kernel.ext_desc_igrid 4 13, ⟨9, 1, 1⟩, ⟨16, 16, 1⟩, 0, 12⟩
        : KernelLaunch).block.x = 16 ∧
    (⟨Kernel.ext_desc_igrid 4 13, ⟨9, 1, 1⟩, ⟨16, 16, 1⟩, 0, 12⟩
        : KernelLaunch).block.y = 16 ∧
    (⟨Kernel.ext_desc_igrid 4 13, ⟨9, 1, 1⟩, ⟨16, 16, 1⟩, 0, 12⟩
        : KernelLaunch).block.z = IGRID_NUMLINES ∧
    IGRID_NUMLINES = 1 ∧
    (⟨Kernel.ext_desc_igrid 4 13, ⟨9, 1, 1⟩, ⟨16, 16, 1⟩, 0, 12⟩
        : KernelLaunch).block.x *
      (⟨Kernel.ext_desc_igrid 4 13, ⟨9, 1, 1⟩, ⟨16, 16, 1⟩, 0, 12⟩
          : KernelLaunch).block.y *
      (⟨Kernel.ext_desc_igrid 4 13, ⟨9, 1, 1⟩, ⟨16, 16, 1⟩, 0, 12⟩
          : KernelLaunch).block.z = 256 :=
  block_is_16_16_1 4 ⟨fun _ => 9⟩ ⟨12, ⟨13⟩⟩
    ⟨Kernel.ext_desc_igrid 4 13, ⟨9, 1, 1⟩, ⟨16, 16, 1⟩, 0, 12⟩ (by decide)

/-- Claim C10: `start_ext_desc_igrid` never mutates its inputs — on both
the no-work path and the launch path, the counter table `hct` and the
octave object come out of the call exactly as they went in. -/
theorem inputs_not_mutated (octave : Nat) (hct : ExtremaCounters)
    (oct_obj : Octave) :
    (start_ext_desc_igrid octave hct oct_obj).hct_out = hct ∧
    (start_ext_desc_igrid octave hct oct_obj).oct_out = oct_obj := by
  by_cases h : hct.ori_ct octave = 0 <;>
    simp [start_ext_desc_igrid, h]

end popsift
